import Mathlib

/-!
Shallow embedding of the moderation cog of a Discord bot
(src/cogs/moderation.py) and the embed helpers it uses.

Python dictionaries holding configuration values are modelled as
association lists of dynamically typed values.  External effects of a
command invocation (platform moderation calls and persistence writes)
are recorded explicitly in the value each command model returns, so a
theorem can state how many external calls and database writes an
invocation performs.  Nondeterminism of the environment (whether the
platform call succeeds, how an interactive confirmation resolves, what
the store returns) is passed in as explicit parameters.
-/

/-! ## Python value and dictionary model -/

/-- A dynamically typed Python value as found in the configuration dict. -/
inductive PyVal where
  | pint (n : Int)
  | pstr (s : String)
  | pnone
  deriving DecidableEq

/-- Python d.get(key, default) on an association-list dict. -/
def dictGetD : List (String × PyVal) → String → PyVal → PyVal
  | [], _, dflt => dflt
  | (k, v) :: rest, key, dflt => if k = key then v else dictGetD rest key dflt

/-- Python d[key] on an association-list dict; none models a KeyError. -/
def dictGetKey : List (String × PyVal) → String → Option PyVal
  | [], _ => none
  | (k, v) :: rest, key => if k = key then some v else dictGetKey rest key

/-- Python whitespace strip of a string (str.strip with no arguments). -/
def pyStrip (s : String) : String :=
  String.mk ((((s.data.dropWhile Char.isWhitespace).reverse).dropWhile
    Char.isWhitespace).reverse)

/-- Value of a list of decimal digit characters, most significant first. -/
def digitsToNat (l : List Char) : Nat :=
  l.foldl (fun n c => n * 10 + (c.toNat - 48)) 0

/-- Python int(s) on a string: surrounding whitespace and one optional
sign are accepted around a nonempty run of digits; none models the
ValueError raised on any other shape. -/
def parseIntStr (s : String) : Option Int :=
  match (pyStrip s).data with
  | '-' :: rest =>
    if rest ≠ [] ∧ rest.all Char.isDigit then some (-(digitsToNat rest : Int)) else none
  | '+' :: rest =>
    if rest ≠ [] ∧ rest.all Char.isDigit then some ((digitsToNat rest : Int)) else none
  | l =>
    if l ≠ [] ∧ l.all Char.isDigit then some ((digitsToNat l : Int)) else none

/-- Python int(v) on a dynamic value; none models the exception raised
when the value cannot be converted (int(None), int("abc")). -/
def pyInt : PyVal → Option Int
  | .pint n => some n
  | .pstr s => parseIntStr s
  | .pnone => none

/-- Python str(v) on a dynamic value; str(None) is the text None. -/
def pyStr : PyVal → String
  | .pint n => toString n
  | .pstr s => s
  | .pnone => "None"

/-- Python str.lower restricted to ASCII case mapping. -/
def pyLower (s : String) : String := String.mk (s.data.map Char.toLower)

/-- Helper for the non-overlapping left-to-right deletion of a pattern,
with structural fuel so that the definition evaluates in the kernel;
the fuel is always instantiated with the length of the scanned list,
which suffices for a nonempty pattern. -/
def removeAux (pat : List Char) : Nat → List Char → List Char
  | _, [] => []
  | 0, l => l
  | Nat.succ fuel, c :: rest =>
    if pat.isPrefixOf (c :: rest) then
      removeAux pat fuel (List.drop pat.length (c :: rest))
    else c :: removeAux pat fuel rest

/-- Python s.replace(pat, "") for a nonempty pattern: deletes every
non-overlapping occurrence, scanning left to right. -/
def pyReplaceDel (s : String) (pat : String) : String :=
  String.mk (removeAux pat.data s.data.length s.data)

/-- Python str.isdigit restricted to ASCII digits: the string is
nonempty and every character is a digit. -/
def pyIsDigit (s : String) : Bool := !s.data.isEmpty && s.data.all Char.isDigit

/-- Process-wide bot configuration relevant to the moderation cog.
The moderation field is the dict stored under the key "moderation":
none models the key being absent or its value not being a dict (the
code maps both to an empty dict via the isinstance check). -/
structure BotConfig where
  moderation : Option (List (String × PyVal))
  deriving DecidableEq

/-! ## Guild, members, and recorded effects -/

/-- A guild member as far as the moderation guards inspect one:
identifier, display name and the rank of the highest role. -/
structure Member where
  id : Nat
  name : String
  topRole : Nat
  deriving DecidableEq

/-- The part of an interaction a moderation command inspects before and
while acting: whether a guild is attached, whether the invoking user
resolved to a guild member, the guild and its owner, the invoking
moderator (author) and the command target. -/
structure Snapshot where
  guildPresent : Bool
  userIsMember : Bool
  guildId : Nat
  ownerId : Nat
  author : Member
  target : Member
  deriving DecidableEq

/-- An external platform moderation call issued by a command. -/
inductive ExtCall where
  | kickCall (targetId : Nat) (reason : String)
  | banCall (targetId : Nat) (reason : String)
  | unbanCall (userId : Nat)
  | timeoutCall (targetId : Nat) (minutes : Int) (reason : String)
  | untimeoutCall (targetId : Nat) (reason : String)
  deriving DecidableEq

/-- A persistence write issued by a command. -/
inductive DbWrite where
  | addWarning (guildId memberId modId : Nat) (reason : String)
  | logAction (guildId : Nat) (action : String) (targetId modId : Nat)
      (reason : Option String)
  | deleteWarningWrite (guildId : Nat) (warningId : Nat)
  | removeWarningWrite (guildId memberId : Nat)
  deriving DecidableEq

/-- The user-visible outcome of a moderation command invocation. -/
inductive CmdResult where
  | contextError
  | ownerError
  | hierarchyError
  | cancelled
  | invalidUserId
  | forbiddenError
  | httpError
  | success
  | crashed (exc : String)
  deriving DecidableEq

/-- Whether a result is one of the three guard rejections that abort a
command before it acts (invalid context, owner immunity, hierarchy). -/
def CmdResult.isGuardRejection : CmdResult → Bool
  | .contextError => true
  | .ownerError => true
  | .hierarchyError => true
  | _ => false

/-- Everything a command invocation produces: its result, the external
platform calls it issued, and the persistence writes it performed. -/
structure CmdEffects where
  result : CmdResult
  calls : List ExtCall
  writes : List DbWrite
  deriving DecidableEq

/-- Outcome of an attempted external platform action: it succeeds, the
bot lacks permission (Forbidden), or the API fails (HTTPException). -/
inductive ExtOutcome where
  | ok
  | forbidden
  | httpErr
  deriving DecidableEq

/-- Resolution of the interactive ban confirmation: the view value is
True (accepted), False (declined), or stays None after the bounded
wait (timed out).  The code acts only when the value is True. -/
inductive ConfirmOutcome where
  | accepted
  | declined
  | timedOut
  deriving DecidableEq

/-- Reason string composed by kick, ban and timeout:
the f-string reason | Verb by author (author.id). -/
def composedReason (verb : String) (author : Member) (reason : String) : String :=
  reason ++ " | " ++ verb ++ " by " ++ author.name ++ " (" ++ toString author.id ++ ")"

/-! ## Commands: kick, ban, unban, timeout, untimeout -/

/-- Model of Moderation.kick (moderation.py lines 76 to 107): guild
context guard, owner guard, hierarchy guard, then the kick call; on
success an action-log entry is written, on Forbidden or HTTPException
an error is reported and no log entry is written. -/
def kickCmd (s : Snapshot) (reason : String) (env : ExtOutcome) : CmdEffects :=
  if s.guildPresent = false ∨ s.userIsMember = false then ⟨.contextError, [], []⟩
  else if s.target.id = s.ownerId then ⟨.ownerError, [], []⟩
  else if s.target.topRole ≥ s.author.topRole ∧ s.author.id ≠ s.ownerId then
    ⟨.hierarchyError, [], []⟩
  else
    let r := composedReason "Kicked" s.author reason
    match env with
    | .ok => ⟨.success, [.kickCall s.target.id r],
        [.logAction s.guildId "kick" s.target.id s.author.id (some reason)]⟩
    | .forbidden => ⟨.forbiddenError, [.kickCall s.target.id r], []⟩
    | .httpErr => ⟨.httpError, [.kickCall s.target.id r], []⟩

/-- Model of Moderation.ban (moderation.py lines 110 to 170): the same
guards as kick, then the interactive confirmation; unless the view
resolves to True the command cancels with no call and no write; on
acceptance the ban call is issued and, when it succeeds, an action-log
entry with action ban is written. -/
def banCmd (s : Snapshot) (reason : String) (confirm : ConfirmOutcome)
    (env : ExtOutcome) : CmdEffects :=
  if s.guildPresent = false ∨ s.userIsMember = false then ⟨.contextError, [], []⟩
  else if s.target.id = s.ownerId then ⟨.ownerError, [], []⟩
  else if s.target.topRole ≥ s.author.topRole ∧ s.author.id ≠ s.ownerId then
    ⟨.hierarchyError, [], []⟩
  else if confirm ≠ .accepted then ⟨.cancelled, [], []⟩
  else
    let r := composedReason "Banned" s.author reason
    match env with
    | .ok => ⟨.success, [.banCall s.target.id r],
        [.logAction s.guildId "ban" s.target.id s.author.id (some reason)]⟩
    | .forbidden => ⟨.forbiddenError, [.banCall s.target.id r], []⟩
    | .httpErr => ⟨.httpError, [.banCall s.target.id r], []⟩

/-- Identifier cleaning performed by Moderation.unban (moderation.py
line 181): user_id.strip().replace("<@", "").replace(">", "").replace("!", ""). -/
def cleanUserId (s : String) : String :=
  pyReplaceDel (pyReplaceDel (pyReplaceDel (pyStrip s) "<@") ">") "!"

/-- Validation and conversion performed by Moderation.unban (lines 182
to 187): the cleaned string must be purely numeric, and is then
converted with int. -/
def unbanParse (s : String) : Option Nat :=
  let cleaned := cleanUserId s
  if pyIsDigit cleaned then some (digitsToNat cleaned.data) else none

/-- Model of Moderation.unban (moderation.py lines 173 to 205): guild
context guard, identifier cleaning and validation, then the fetch and
unban calls; env describes the outcome of the unban attempt. -/
def unbanCmd (s : Snapshot) (userId : String) (env : ExtOutcome) : CmdEffects :=
  if s.guildPresent = false ∨ s.userIsMember = false then ⟨.contextError, [], []⟩
  else
    match unbanParse userId with
    | none => ⟨.invalidUserId, [], []⟩
    | some uid =>
      match env with
      | .ok => ⟨.success, [.unbanCall uid],
          [.logAction s.guildId "unban" uid s.author.id none]⟩
      | .forbidden => ⟨.forbiddenError, [.unbanCall uid], []⟩
      | .httpErr => ⟨.httpError, [.unbanCall uid], []⟩

/-- Model of Moderation.timeout (moderation.py lines 354 to 386): guild
context guard, hierarchy guard (no owner guard), then the timeout call
with the composed reason and, on success, an action-log entry. -/
def timeoutCmd (s : Snapshot) (duration : Int) (reason : String)
    (env : ExtOutcome) : CmdEffects :=
  if s.guildPresent = false ∨ s.userIsMember = false then ⟨.contextError, [], []⟩
  else if s.target.topRole ≥ s.author.topRole ∧ s.author.id ≠ s.ownerId then
    ⟨.hierarchyError, [], []⟩
  else
    let r := composedReason "Timed out" s.author reason
    match env with
    | .ok => ⟨.success, [.timeoutCall s.target.id duration r],
        [.logAction s.guildId "timeout" s.target.id s.author.id (some reason)]⟩
    | .forbidden => ⟨.forbiddenError, [.timeoutCall s.target.id duration r], []⟩
    | .httpErr => ⟨.httpError, [.timeoutCall s.target.id duration r], []⟩

/-- Model of Moderation.untimeout (moderation.py lines 389 to 413):
guild context guard only (no owner or hierarchy guard), then the
timeout removal call. -/
def untimeoutCmd (s : Snapshot) (env : ExtOutcome) : CmdEffects :=
  if s.guildPresent = false ∨ s.userIsMember = false then ⟨.contextError, [], []⟩
  else
    let r := "Timeout removed by " ++ s.author.name ++ " (" ++ toString s.author.id ++ ")"
    match env with
    | .ok => ⟨.success, [.untimeoutCall s.target.id r],
        [.logAction s.guildId "untimeout" s.target.id s.author.id none]⟩
    | .forbidden => ⟨.forbiddenError, [.untimeoutCall s.target.id r], []⟩
    | .httpErr => ⟨.httpError, [.untimeoutCall s.target.id r], []⟩

/-! ## The warn command and its threshold auto action -/

/-- Outcome of the warn threshold auto-action block. -/
inductive AutoAction where
  | noAction
  | autoTimeout (minutes : Int) (reason : String)
  | autoKick (reason : String)
  | autoBan (reason : String)
  | crash (exc : String)
  deriving DecidableEq

/-- Core of the threshold auto-action decision (moderation.py lines 262
to 295), abstracted over the already-extracted configuration values:
the hardened threshold, the lowercased action name, and the result of
the direct dict lookup of the timeout duration (none is the KeyError
raised at line 267 when the key is absent; a non-integer value makes
timedelta raise, which the except Forbidden clause does not catch). -/
def autoActionCore (warnThreshold : Int) (autoName : String)
    (durationVal : Option PyVal) (warningCount : Int) : AutoAction :=
  if warnThreshold ≤ 0 ∨ autoName = "none" then .noAction
  else if warningCount ≥ warnThreshold ∧ autoName ≠ "none" then
    if autoName = "timeout" then
      match durationVal with
      | none => .crash "KeyError"
      | some (.pint d) => .autoTimeout d ("Reached " ++ toString warnThreshold ++ " warnings")
      | some _ => .crash "TypeError"
    else if autoName = "kick" then .autoKick ("Reached " ++ toString warnThreshold ++ " warnings")
    else if autoName = "ban" then .autoBan ("Reached " ++ toString warnThreshold ++ " warnings")
    else .noAction
  else .noAction

/-- Threshold auto action of Moderation.warn (moderation.py lines 251
to 295): the moderation section is read defensively (missing or
non-dict section becomes an empty dict, int conversion failures fall
back to 0, the action name is stringified and lowercased with default
none), but the timeout duration at line 267 is read with direct
indexing into config["moderation"]. -/
def warnAutoAction (cfg : BotConfig) (warningCount : Int) : AutoAction :=
  let modCfg := cfg.moderation.getD []
  autoActionCore
    ((pyInt (dictGetD modCfg "warn_threshold" (.pint 0))).getD 0)
    (pyLower (pyStr (dictGetD modCfg "warn_threshold_action" (.pstr "none"))))
    (dictGetKey (cfg.moderation.getD []) "warn_threshold_timeout_duration")
    warningCount

/-- Model of Moderation.warn (moderation.py lines 208 to 295): guild
context guard, hierarchy guard (warn has no owner guard), then the
warning record and the action-log entry are written, the updated count
is read back (read-your-writes: one more than the prior count), the
responses are sent, and finally the threshold auto action runs.  The
crash constructor records an exception escaping the handler. -/
def warnCmd (s : Snapshot) (reason : String) (cfg : BotConfig)
    (priorWarnings : Nat) : CmdEffects :=
  if s.guildPresent = false ∨ s.userIsMember = false then ⟨.contextError, [], []⟩
  else if s.target.topRole ≥ s.author.topRole ∧ s.author.id ≠ s.ownerId then
    ⟨.hierarchyError, [], []⟩
  else
    let baseWrites : List DbWrite :=
      [.addWarning s.guildId s.target.id s.author.id reason,
       .logAction s.guildId "warn" s.target.id s.author.id (some reason)]
    match warnAutoAction cfg ((priorWarnings : Int) + 1) with
    | .noAction => ⟨.success, [], baseWrites⟩
    | .autoTimeout d r => ⟨.success, [.timeoutCall s.target.id d r], baseWrites⟩
    | .autoKick r => ⟨.success, [.kickCall s.target.id r], baseWrites⟩
    | .autoBan r => ⟨.success, [.banCall s.target.id r], baseWrites⟩
    | .crash e => ⟨.crashed e, [], baseWrites⟩

/-! ## Warnings list, clear, unwarn, purge -/

/-- A warning record as the unwarn and warnings commands inspect one:
the three optional identifier fields probed by unwarn, plus the fields
rendered by the warnings list. -/
structure WarningRec where
  idField : Option Nat
  warningIdField : Option Nat
  oidField : Option Nat
  reason : Option String
  modId : Option Nat
  deriving DecidableEq

/-- Python x or y on optional numeric values: keeps x when it is truthy
(present and nonzero), otherwise yields y. -/
def pyOrOpt (a b : Option Nat) : Option Nat :=
  match a with
  | some n => if n ≠ 0 then some n else b
  | none => b

/-- Identifier extraction of Moderation.unwarn (moderation.py line 443):
latest.get("id") or latest.get("warning_id") or latest.get("_id"). -/
def pyWid (w : WarningRec) : Option Nat :=
  pyOrOpt w.idField (pyOrOpt w.warningIdField w.oidField)

/-- Deletion capabilities the duck-typed store backend may expose,
probed by unwarn with hasattr. -/
structure DbCaps where
  hasDeleteWarning : Bool
  hasRemoveWarning : Bool
  deriving DecidableEq

/-- Outcome of the unwarn command. -/
inductive UnwarnResult where
  | contextError
  | noWarnings
  | unsupported
  | removed (newCount : Nat)
  deriving DecidableEq

/-- Modelled from the spec: the precise delete_warning store capability
(the store itself is not part of this repository) removes the record
carrying the given identifier. -/
def deleteById : List WarningRec → Nat → List WarningRec
  | [], _ => []
  | w :: ws, n => if pyWid w = some n then ws else w :: deleteById ws n

/-- Model of Moderation.unwarn (moderation.py lines 429 to 459): guard
on the guild only, fetch the warnings, take the first record as the
latest, prefer the precise deletion capability when an identifier is
truthy and the store has delete_warning, else the coarse
remove_warning capability, else report that the backend does not
support unwarn; on a removal the new count is read back and an
action-log entry is written.  The returned triple is the result, the
persistence writes, and the warning list after the store call (the
coarse capability is modelled from the spec as removing one warning of
the member). -/
def unwarnCmd (s : Snapshot) (caps : DbCaps) (warnings : List WarningRec) :
    UnwarnResult × List DbWrite × List WarningRec :=
  if s.guildPresent = false then (.contextError, [], warnings)
  else
    match warnings with
    | [] => (.noWarnings, [], [])
    | latest :: rest =>
      match pyWid latest with
      | some wid =>
        if caps.hasDeleteWarning then
          let afterDelete := deleteById (latest :: rest) wid
          (.removed afterDelete.length,
           [.deleteWarningWrite s.guildId wid,
            .logAction s.guildId "unwarn" s.target.id s.author.id (some "Removed latest warning")],
           afterDelete)
        else if caps.hasRemoveWarning then
          (.removed rest.length,
           [.removeWarningWrite s.guildId s.target.id,
            .logAction s.guildId "unwarn" s.target.id s.author.id (some "Removed latest warning")],
           rest)
        else (.unsupported, [], latest :: rest)
      | none =>
        if caps.hasRemoveWarning then
          (.removed rest.length,
           [.removeWarningWrite s.guildId s.target.id,
            .logAction s.guildId "unwarn" s.target.id s.author.id (some "Removed latest warning")],
           rest)
        else (.unsupported, [], latest :: rest)

/-- Outcome of the warnings list command. -/
inductive ListResult where
  | contextError
  | dbTimeout
  | noWarnings
  | listed (shown : Nat) (total : Nat)
  deriving DecidableEq

/-- Model of Moderation.warnings (moderation.py lines 298 to 335):
guard on the guild only, then the bounded store read; an empty list is
a plain notice, otherwise up to the first ten records are rendered. -/
def warningsCmd (s : Snapshot) (dbOutcome : Except Unit (List WarningRec)) : ListResult :=
  if s.guildPresent = false then .contextError
  else
    match dbOutcome with
    | .error _ => .dbTimeout
    | .ok [] => .noWarnings
    | .ok ws => .listed (min ws.length 10) ws.length

/-- Outcome of the clearwarnings command. -/
inductive ClearResult where
  | contextError
  | dbTimeout
  | cleared (n : Nat)
  deriving DecidableEq

/-- Model of Moderation.clearwarnings (moderation.py lines 338 to 351):
guard on the guild only, then the bounded store call returning the
number of removed warnings. -/
def clearwarningsCmd (s : Snapshot) (dbOutcome : Except Unit Nat) : ClearResult :=
  if s.guildPresent = false then .contextError
  else
    match dbOutcome with
    | .error _ => .dbTimeout
    | .ok n => .cleared n

/-- Outcome of the purge command. -/
inductive PurgeOutcome where
  | contextError
  | capError (maxAmount : Int)
  | notTextChannel
  | purged (n : Nat)
  | forbiddenError
  | httpError
  deriving DecidableEq

/-- Environment of a purge invocation: the bulk delete succeeds
removing n messages, or the bot lacks permission, or the API fails. -/
inductive PurgeEnv where
  | ok (deleted : Nat)
  | forbidden
  | httpErr
  deriving DecidableEq

/-- Model of Moderation.purge (moderation.py lines 486 to 534): guard
on the guild only, hardened read of max_purge_amount (default 100),
cap check, channel check, then the bulk delete; on success an
action-log entry records the actor as target and moderator. -/
def purgeCmd (s : Snapshot) (cfg : BotConfig) (amount : Int)
    (channelHasPurge : Bool) (env : PurgeEnv) : PurgeOutcome × List DbWrite :=
  if s.guildPresent = false then (.contextError, [])
  else
    let modCfg := cfg.moderation.getD []
    let maxAmount := (pyInt (dictGetD modCfg "max_purge_amount" (.pint 100))).getD 100
    if amount > maxAmount then (.capError maxAmount, [])
    else if channelHasPurge = false then (.notTextChannel, [])
    else
      match env with
      | .ok n => (.purged n,
          [.logAction s.guildId "purge" s.author.id s.author.id
            (some ("Purged " ++ toString n ++ " messages"))])
      | .forbidden => (.forbiddenError, [])
      | .httpErr => (.httpError, [])

/-! ## The modlog broadcast helper -/

/-- Per-guild server settings record as read by the modlog helper. -/
structure ServerSettings where
  logChannel : Option Nat
  deriving DecidableEq

/-- Outcome of the send to the resolved log channel. -/
inductive SendOutcome where
  | sendOk
  | sendFail
  deriving DecidableEq

/-- Outcome of the modlog broadcast helper. -/
inductive ModlogOutcome where
  | posted
  | skipped
  | sendFailureIgnored
  | raised
  deriving DecidableEq

/-- Whether the broadcast helper handled its situation internally
instead of letting an exception escape to the calling command. -/
def ModlogOutcome.silentlyHandled : ModlogOutcome → Bool
  | .raised => false
  | _ => true

/-- Model of Moderation._post_modlog (moderation.py lines 63 to 73):
the server-settings read is awaited with no try block and no timeout
wrapper, so a failing read escapes as an exception (raised); a falsy
stored channel id or an unresolvable channel skips the post; only the
channel send itself is wrapped in try/except. -/
def postModlog (settingsRead : Except Unit ServerSettings)
    (channelResolvable : Nat → Bool) (send : SendOutcome) : ModlogOutcome :=
  match settingsRead with
  | .error _ => .raised
  | .ok st =>
    match st.logChannel with
    | none => .skipped
    | some cid =>
      if cid = 0 then .skipped
      else if channelResolvable cid then
        match send with
        | .sendOk => .posted
        | .sendFail => .sendFailureIgnored
      else .skipped

/-! ## Concrete inputs used by witnesses and counterexamples -/

/-- Empty configuration: no moderation section. -/
def cfg0 : BotConfig := ⟨none⟩

/-- Configuration with a threshold, the timeout action, and a
configured duration. -/
def timeoutCfg (t d : Int) : BotConfig :=
  ⟨some [("warn_threshold", .pint t),
         ("warn_threshold_action", .pstr "timeout"),
         ("warn_threshold_timeout_duration", .pint d)]⟩

/-- Configuration whose action is timeout but whose timeout duration is
absent. -/
def cfgMissingDuration : BotConfig :=
  ⟨some [("warn_threshold", .pint 1),
         ("warn_threshold_action", .pstr "timeout")]⟩

/-- Valid in-guild snapshot whose moderator is the guild owner. -/
def snapOwnerMod : Snapshot :=
  ⟨true, true, 100, 1, ⟨1, "alice", 50⟩, ⟨2, "bob", 10⟩⟩

/-- Valid in-guild snapshot: moderator rank 50, target rank 7, neither
is the owner. -/
def snapPlain : Snapshot :=
  ⟨true, true, 100, 1, ⟨2, "alice", 50⟩, ⟨3, "bob", 7⟩⟩

/-- Valid in-guild snapshot where target rank 7 ties or exceeds nobody:
moderator rank 5, target rank 7, neither is the owner. -/
def snapOutranked : Snapshot :=
  ⟨true, true, 100, 1, ⟨2, "alice", 5⟩, ⟨3, "bob", 7⟩⟩

/-- Valid in-guild snapshot whose target is the guild owner and has a
rank at least the rank of the moderator. -/
def snapOwnerTargetHigh : Snapshot :=
  ⟨true, true, 100, 1, ⟨2, "mod", 5⟩, ⟨1, "own", 9⟩⟩

/-- Valid in-guild snapshot whose target is the guild owner and has a
rank below the rank of the moderator. -/
def snapOwnerTargetLow : Snapshot :=
  ⟨true, true, 100, 2, ⟨5, "mod", 50⟩, ⟨2, "own", 10⟩⟩

/-- Interaction with no guild attached. -/
def snapNoGuild : Snapshot :=
  ⟨false, true, 100, 1, ⟨2, "alice", 50⟩, ⟨3, "bob", 7⟩⟩

/-- Interaction with a guild but whose invoking user did not resolve to
a guild member. -/
def snapNoMember : Snapshot :=
  ⟨true, false, 100, 1, ⟨2, "alice", 50⟩, ⟨3, "bob", 7⟩⟩

/-- A single warning record carrying no identifier field. -/
def warnRec0 : WarningRec := ⟨none, none, none, some "spam", some 2⟩

/-! ## Claim theorems -/

/-- C9 (confirmed): the unban identifier cleaning resolves the inputs
"123456789", "<@123456789>" and "<@!123456789>" to the same numeric
identifier 123456789 and the command proceeds issuing exactly that
unban call, while the input "abc" is rejected with the invalid-user-ID
error before any external call. -/
theorem c9_unban_input_cleaning :
    unbanParse "123456789" = some 123456789 ∧
    unbanParse "<@123456789>" = some 123456789 ∧
    unbanParse "<@!123456789>" = some 123456789 ∧
    unbanParse "abc" = none ∧
    (unbanCmd snapPlain "123456789" .ok).calls = [.unbanCall 123456789] ∧
    (unbanCmd snapPlain "<@123456789>" .ok).calls = [.unbanCall 123456789] ∧
    (unbanCmd snapPlain "<@!123456789>" .ok).calls = [.unbanCall 123456789] ∧
    unbanCmd snapPlain "abc" .ok = ⟨.invalidUserId, [], []⟩ := by
  refine ⟨by decide, by decide, by decide, by decide, by decide, by decide, by decide, by decide⟩

/-- C10 (confirmed): an unban input is accepted exactly when stripping
surrounding whitespace and deleting every occurrence of the substrings
"<@", ">" and "!" leaves a nonempty all-digit string; in particular the
interleaved input "12!34>56" is accepted and resolves to the
concatenated digits 123456. -/
theorem c10_unban_clean_characterization :
    (∀ s : String, (unbanParse s).isSome = pyIsDigit (cleanUserId s)) ∧
    unbanParse "12!34>56" = some 123456 ∧
    (unbanCmd snapPlain "12!34>56" .ok).calls = [.unbanCall 123456] := by
  refine ⟨fun s => ?_, by decide, by decide⟩
  unfold unbanParse
  cases h : pyIsDigit (cleanUserId s) <;> simp [h]

/-- C5 (code bug): with a configuration whose warn threshold is 1 and
whose action is timeout but with the timeout duration absent, the
first warning reaches the auto-action block and the direct dict
indexing at moderation.py line 267 raises a KeyError that escapes the
warn handler, after the warning record and the action-log entry were
already written; the hardened fallback promised by the comment at line
251 does not cover this read. -/
theorem c5_warn_crashes_on_missing_duration :
    warnCmd snapOwnerMod "spam" cfgMissingDuration 0 =
      ⟨.crashed "KeyError", [],
       [.addWarning 100 2 1 "spam",
        .logAction 100 "warn" 2 1 (some "spam")]⟩ := by decide

/-- C6 counterexample: a failing server-settings store read inside the
modlog broadcast helper is not silently ignored: it escapes the helper
as an exception instead of being handled internally. -/
theorem c6_modlog_counterexample :
    postModlog (Except.error ()) (fun _ => true) .sendOk = .raised ∧
    (postModlog (Except.error ()) (fun _ => true) .sendOk).silentlyHandled = false := by
  exact ⟨rfl, rfl⟩

/-- C6 (amended): once the server-settings read succeeds, every failure
mode of the modlog broadcast (unset or falsy stored channel id,
unresolvable or deleted channel, failing channel send) is silently
handled inside the helper and cannot disturb the invoking command; a
failing server-settings read, however, always escapes the helper as an
exception. -/
theorem c6_modlog_best_effort_amended :
    (∀ (st : ServerSettings) (resolvable : Nat → Bool) (send : SendOutcome),
      (postModlog (Except.ok st) resolvable send).silentlyHandled = true) ∧
    (∀ (resolvable : Nat → Bool) (send : SendOutcome),
      postModlog (Except.error ()) resolvable send = .raised) := by
  constructor
  · intro st resolvable send
    rcases st with ⟨lc⟩
    cases lc with
    | none => rfl
    | some cid =>
      by_cases h0 : cid = 0
      · simp [postModlog, h0, ModlogOutcome.silentlyHandled]
      · by_cases hr : resolvable cid
        · cases send <;> simp [postModlog, h0, hr, ModlogOutcome.silentlyHandled]
        · simp [postModlog, h0, hr, ModlogOutcome.silentlyHandled]
  · intro resolvable send
    rfl

/-- C1 counterexample: a (moderator, target) pair satisfying the
hypotheses of the claim (target rank at least moderator rank,
moderator not the owner) on which kick rejects with the owner-immunity
error rather than the hierarchy error, because the target is the guild
owner and the owner guard of kick and ban fires first. -/
theorem c1_hierarchy_guard_counterexample :
    snapOwnerTargetHigh.target.topRole ≥ snapOwnerTargetHigh.author.topRole ∧
    snapOwnerTargetHigh.author.id ≠ snapOwnerTargetHigh.ownerId ∧
    (kickCmd snapOwnerTargetHigh "No reason provided" .ok).result = .ownerError ∧
    (banCmd snapOwnerTargetHigh "No reason provided" .accepted .ok).result = .ownerError ∧
    CmdResult.ownerError ≠ CmdResult.hierarchyError := by decide

/-- C1 (amended): for every (moderator, target) pair where the target
rank is at least the moderator rank and the moderator is not the guild
owner, each of kick, ban, warn and timeout rejects before any external
moderation call and before any persistence write, with a
target-ineligibility error: warn and timeout always reject with the
hierarchy error, while kick and ban reject with the owner-immunity
error when the target is the guild owner and with the hierarchy error
otherwise. -/
theorem c1_hierarchy_guard_rejects (s : Snapshot) (reason : String)
    (confirm : ConfirmOutcome) (env : ExtOutcome) (cfg : BotConfig)
    (pw : Nat) (dur : Int)
    (hg : s.guildPresent = true) (hm : s.userIsMember = true)
    (hr : s.target.topRole ≥ s.author.topRole) (ho : s.author.id ≠ s.ownerId) :
    kickCmd s reason env =
      ⟨if s.target.id = s.ownerId then .ownerError else .hierarchyError, [], []⟩ ∧
    banCmd s reason confirm env =
      ⟨if s.target.id = s.ownerId then .ownerError else .hierarchyError, [], []⟩ ∧
    warnCmd s reason cfg pw = ⟨.hierarchyError, [], []⟩ ∧
    timeoutCmd s dur reason env = ⟨.hierarchyError, [], []⟩ := by
  have hctx : ¬(s.guildPresent = false ∨ s.userIsMember = false) := by simp [hg, hm]
  have hhier : s.target.topRole ≥ s.author.topRole ∧ s.author.id ≠ s.ownerId := ⟨hr, ho⟩
  refine ⟨?_, ?_, ?_, ?_⟩
  · unfold kickCmd
    rw [if_neg hctx]
    by_cases how : s.target.id = s.ownerId
    · rw [if_pos how, if_pos how]
    · rw [if_neg how, if_pos hhier, if_neg how]
  · unfold banCmd
    rw [if_neg hctx]
    by_cases how : s.target.id = s.ownerId
    · rw [if_pos how, if_pos how]
    · rw [if_neg how, if_pos hhier, if_neg how]
  · unfold warnCmd
    rw [if_neg hctx, if_pos hhier]
  · unfold timeoutCmd
    rw [if_neg hctx, if_pos hhier]

/-- C1 witness: the amended theorem applied to a concrete in-guild pair
whose target outranks the moderator and is not the owner. -/
theorem c1_hierarchy_guard_rejects_witness :
    kickCmd snapOutranked "No reason provided" .ok =
      ⟨if snapOutranked.target.id = snapOutranked.ownerId then .ownerError
        else .hierarchyError, [], []⟩ ∧
    banCmd snapOutranked "No reason provided" .accepted .ok =
      ⟨if snapOutranked.target.id = snapOutranked.ownerId then .ownerError
        else .hierarchyError, [], []⟩ ∧
    warnCmd snapOutranked "No reason provided" cfg0 0 = ⟨.hierarchyError, [], []⟩ ∧
    timeoutCmd snapOutranked 5 "No reason provided" .ok = ⟨.hierarchyError, [], []⟩ :=
  c1_hierarchy_guard_rejects snapOutranked "No reason provided" .accepted .ok cfg0 0 5
    rfl rfl (by decide) (by decide)

/-- C2 (confirmed): in a valid guild context, kick and ban against a
target who is the guild owner always reject with the owner-immunity
error and perform no call and no write, regardless of the ranks of
moderator and target; warn and timeout never produce the
owner-immunity error, and when the rank check does not fire they
proceed past all guards even against the owner, so rejecting an
owner target is never an owner-specific behavior of warn or timeout. -/
theorem c2_owner_immunity (s : Snapshot) (reason : String)
    (confirm : ConfirmOutcome) (env : ExtOutcome) (cfg : BotConfig)
    (pw : Nat) (dur : Int)
    (hg : s.guildPresent = true) (hm : s.userIsMember = true) :
    (s.target.id = s.ownerId →
      kickCmd s reason env = ⟨.ownerError, [], []⟩ ∧
      banCmd s reason confirm env = ⟨.ownerError, [], []⟩) ∧
    (warnCmd s reason cfg pw).result ≠ .ownerError ∧
    (timeoutCmd s dur reason env).result ≠ .ownerError ∧
    (s.target.id = s.ownerId →
      ¬(s.target.topRole ≥ s.author.topRole ∧ s.author.id ≠ s.ownerId) →
      (warnCmd s reason cfg pw).result.isGuardRejection = false ∧
      (timeoutCmd s dur reason env).result.isGuardRejection = false) := by
  have hctx : ¬(s.guildPresent = false ∨ s.userIsMember = false) := by simp [hg, hm]
  refine ⟨fun how => ⟨?_, ?_⟩, ?_, ?_, fun how hnr => ⟨?_, ?_⟩⟩
  · unfold kickCmd; rw [if_neg hctx, if_pos how]
  · unfold banCmd; rw [if_neg hctx, if_pos how]
  · unfold warnCmd
    rw [if_neg hctx]
    by_cases hh : s.target.topRole ≥ s.author.topRole ∧ s.author.id ≠ s.ownerId
    · rw [if_pos hh]; simp
    · rw [if_neg hh]
      cases hA : warnAutoAction cfg ((pw : Int) + 1) <;> simp [hA]
  · unfold timeoutCmd
    rw [if_neg hctx]
    by_cases hh : s.target.topRole ≥ s.author.topRole ∧ s.author.id ≠ s.ownerId
    · rw [if_pos hh]; simp
    · rw [if_neg hh]
      cases env <;> simp
  · unfold warnCmd
    rw [if_neg hctx, if_neg hnr]
    cases hA : warnAutoAction cfg ((pw : Int) + 1) <;>
      simp [hA, CmdResult.isGuardRejection]
  · unfold timeoutCmd
    rw [if_neg hctx, if_neg hnr]
    cases env <;> simp [CmdResult.isGuardRejection]

/-- C2 witness: the theorem applied to a concrete in-guild snapshot
whose target is the guild owner with a rank below the moderator. -/
theorem c2_owner_immunity_witness :
    (snapOwnerTargetLow.target.id = snapOwnerTargetLow.ownerId →
      kickCmd snapOwnerTargetLow "No reason provided" .ok = ⟨.ownerError, [], []⟩ ∧
      banCmd snapOwnerTargetLow "No reason provided" .accepted .ok = ⟨.ownerError, [], []⟩) ∧
    (warnCmd snapOwnerTargetLow "No reason provided" cfg0 0).result ≠ .ownerError ∧
    (timeoutCmd snapOwnerTargetLow 5 "No reason provided" .ok).result ≠ .ownerError ∧
    (snapOwnerTargetLow.target.id = snapOwnerTargetLow.ownerId →
      ¬(snapOwnerTargetLow.target.topRole ≥ snapOwnerTargetLow.author.topRole ∧
        snapOwnerTargetLow.author.id ≠ snapOwnerTargetLow.ownerId) →
      (warnCmd snapOwnerTargetLow "No reason provided" cfg0 0).result.isGuardRejection = false ∧
      (timeoutCmd snapOwnerTargetLow 5 "No reason provided" .ok).result.isGuardRejection = false) :=
  c2_owner_immunity snapOwnerTargetLow "No reason provided" .accepted .ok cfg0 0 5 rfl rfl

/-- Evaluation of the hardened config reads of the warn auto action on
a configuration carrying a threshold, the timeout action and a
configured integer duration. -/
theorem warnAutoAction_timeoutCfg (t d c : Int) :
    warnAutoAction (timeoutCfg t d) c =
      autoActionCore t "timeout" (some (.pint d)) c := rfl

/-- Behavior of the auto-action core for a positive threshold, the
timeout action, and a present integer duration: the timeout fires
exactly when the count is at least the threshold. -/
theorem autoActionCore_timeout (t d c : Int) (ht : 0 < t) :
    autoActionCore t "timeout" (some (.pint d)) c =
      if c ≥ t then .autoTimeout d ("Reached " ++ toString t ++ " warnings")
      else .noAction := by
  unfold autoActionCore
  rw [if_neg (fun hor => hor.elim (fun h => by omega) (fun h => absurd h (by decide)))]
  by_cases hc : c ≥ t
  · rw [if_pos ⟨hc, by decide⟩, if_pos rfl, if_pos hc]
  · rw [if_neg (by rintro ⟨h, _⟩; exact hc h), if_neg hc]

/-- C3 (confirmed): with a positive warn threshold t, the timeout
action, and a configured duration d, a warn invocation whose updated
count (one more than the prior count) is at least t issues exactly one
auto-timeout of d minutes with reason Reached t warnings, and one
whose updated count is below t issues none; since the comparison is
at-least with no equality guard, every warning at or after the
threshold re-triggers the auto action. -/
theorem c3_warn_threshold_trigger (t d : Int) (n : Nat) (s : Snapshot)
    (reason : String) (ht : 0 < t)
    (hg : s.guildPresent = true) (hm : s.userIsMember = true)
    (hnr : ¬(s.target.topRole ≥ s.author.topRole ∧ s.author.id ≠ s.ownerId)) :
    ((n : Int) + 1 ≥ t →
      warnCmd s reason (timeoutCfg t d) n =
        ⟨.success,
         [.timeoutCall s.target.id d ("Reached " ++ toString t ++ " warnings")],
         [.addWarning s.guildId s.target.id s.author.id reason,
          .logAction s.guildId "warn" s.target.id s.author.id (some reason)]⟩) ∧
    ((n : Int) + 1 < t →
      warnCmd s reason (timeoutCfg t d) n =
        ⟨.success, [],
         [.addWarning s.guildId s.target.id s.author.id reason,
          .logAction s.guildId "warn" s.target.id s.author.id (some reason)]⟩) := by
  have hctx : ¬(s.guildPresent = false ∨ s.userIsMember = false) := by simp [hg, hm]
  constructor
  · intro hge
    unfold warnCmd
    rw [if_neg hctx, if_neg hnr, warnAutoAction_timeoutCfg,
        autoActionCore_timeout t d _ ht, if_pos hge]
  · intro hlt
    unfold warnCmd
    rw [if_neg hctx, if_neg hnr, warnAutoAction_timeoutCfg,
        autoActionCore_timeout t d _ ht, if_neg (by omega)]

/-- C3 witness: with threshold 3, action timeout and duration 60, the
third warning of a member triggers exactly one 60-minute auto-timeout
with reason Reached 3 warnings, and the second triggers none. -/
theorem c3_warn_threshold_trigger_witness :
    warnCmd snapOwnerMod "spam" (timeoutCfg 3 60) 2 =
      ⟨.success, [.timeoutCall 2 60 "Reached 3 warnings"],
       [.addWarning 100 2 1 "spam", .logAction 100 "warn" 2 1 (some "spam")]⟩ ∧
    warnCmd snapOwnerMod "spam" (timeoutCfg 3 60) 1 =
      ⟨.success, [],
       [.addWarning 100 2 1 "spam", .logAction 100 "warn" 2 1 (some "spam")]⟩ :=
  ⟨(c3_warn_threshold_trigger 3 60 2 snapOwnerMod "spam" (by decide) rfl rfl
      (by decide)).1 (by decide),
   (c3_warn_threshold_trigger 3 60 1 snapOwnerMod "spam" (by decide) rfl rfl
      (by decide)).2 (by decide)⟩

/-- C4 (confirmed): for a ban invocation that passes the context,
owner and hierarchy guards, a confirmation resolving to anything but
accepted (declined or timed out) yields zero ban calls and zero
persistence writes under every environment outcome, while a
confirmation resolving to accepted yields, when the platform ban call
succeeds, exactly one ban call and exactly one action-log entry with
action ban. -/
theorem c4_ban_confirmation_gating (s : Snapshot) (reason : String)
    (confirm : ConfirmOutcome) (env : ExtOutcome)
    (hg : s.guildPresent = true) (hm : s.userIsMember = true)
    (hno : s.target.id ≠ s.ownerId)
    (hnr : ¬(s.target.topRole ≥ s.author.topRole ∧ s.author.id ≠ s.ownerId)) :
    (confirm ≠ .accepted → banCmd s reason confirm env = ⟨.cancelled, [], []⟩) ∧
    (confirm = .accepted → env = .ok →
      banCmd s reason confirm env =
        ⟨.success, [.banCall s.target.id (composedReason "Banned" s.author reason)],
         [.logAction s.guildId "ban" s.target.id s.author.id (some reason)]⟩) := by
  have hctx : ¬(s.guildPresent = false ∨ s.userIsMember = false) := by simp [hg, hm]
  constructor
  · intro hc
    unfold banCmd
    rw [if_neg hctx, if_neg hno, if_neg hnr, if_pos hc]
  · rintro rfl rfl
    unfold banCmd
    rw [if_neg hctx, if_neg hno, if_neg hnr, if_neg (by simp)]

/-- C4 witness: the theorem applied to a concrete guard-passing
invocation for each of the three confirmation outcomes. -/
theorem c4_ban_confirmation_gating_witness :
    banCmd snapPlain "No reason provided" .declined .ok = ⟨.cancelled, [], []⟩ ∧
    banCmd snapPlain "No reason provided" .timedOut .ok = ⟨.cancelled, [], []⟩ ∧
    banCmd snapPlain "No reason provided" .accepted .ok =
      ⟨.success,
       [.banCall 3 (composedReason "Banned" snapPlain.author "No reason provided")],
       [.logAction 100 "ban" 3 2 (some "No reason provided")]⟩ :=
  ⟨(c4_ban_confirmation_gating snapPlain "No reason provided" .declined .ok rfl rfl
      (by decide) (by decide)).1 (by decide),
   (c4_ban_confirmation_gating snapPlain "No reason provided" .timedOut .ok rfl rfl
      (by decide) (by decide)).1 (by decide),
   (c4_ban_confirmation_gating snapPlain "No reason provided" .accepted .ok rfl rfl
      (by decide) (by decide)).2 rfl rfl⟩

/-- C7 (confirmed): for an unwarn invocation in a guild against a
member with at least one warning, a store exposing only the coarse
remove-a-warning capability makes unwarn succeed with the count
decreased by exactly one, while a store exposing neither deletion
capability makes unwarn report the not-supported error, perform no
persistence write, and leave the warnings unchanged. -/
theorem c7_unwarn_capability_probing (s : Snapshot) (ws : List WarningRec)
    (hg : s.guildPresent = true) (hne : ws ≠ []) :
    ((unwarnCmd s ⟨false, true⟩ ws).1 = .removed (ws.length - 1) ∧
     (unwarnCmd s ⟨false, true⟩ ws).2.2.length = ws.length - 1) ∧
    ((unwarnCmd s ⟨false, false⟩ ws).1 = .unsupported ∧
     (unwarnCmd s ⟨false, false⟩ ws).2.1 = [] ∧
     (unwarnCmd s ⟨false, false⟩ ws).2.2 = ws) := by
  rcases ws with _ | ⟨latest, rest⟩
  · exact absurd rfl hne
  · unfold unwarnCmd
    rw [if_neg (by simp [hg])]
    cases hW : pyWid latest <;> simp [hW, hg]

/-- C7 witness: the theorem applied to a singleton warning list in a
concrete guild snapshot. -/
theorem c7_unwarn_capability_probing_witness :
    ((unwarnCmd snapPlain ⟨false, true⟩ [warnRec0]).1 = .removed 0 ∧
     (unwarnCmd snapPlain ⟨false, true⟩ [warnRec0]).2.2.length = 0) ∧
    ((unwarnCmd snapPlain ⟨false, false⟩ [warnRec0]).1 = .unsupported ∧
     (unwarnCmd snapPlain ⟨false, false⟩ [warnRec0]).2.1 = [] ∧
     (unwarnCmd snapPlain ⟨false, false⟩ [warnRec0]).2.2 = [warnRec0]) :=
  c7_unwarn_capability_probing snapPlain [warnRec0] rfl (by decide)

/-- C8 counterexample: with a guild attached but an invoking identity
that did not resolve to a guild member, the warnings command does not
reject: it proceeds to the store read and reports its result, whereas
kick in the identical situation rejects with the context error; so the
member-resolution half of the guard does not hold uniformly across the
moderation commands. -/
theorem c8_context_guard_counterexample :
    snapNoMember.guildPresent = true ∧
    snapNoMember.userIsMember = false ∧
    warningsCmd snapNoMember (Except.ok []) = .noWarnings ∧
    warningsCmd snapNoMember (Except.ok []) ≠ .contextError ∧
    (unwarnCmd snapNoMember ⟨true, true⟩ []).1 = .noWarnings ∧
    kickCmd snapNoMember "No reason provided" .ok = ⟨.contextError, [], []⟩ := by
  decide

/-- C8 (amended): kick, ban, unban, warn, timeout and untimeout reject
with the context error, with no external call and no persistence
write, when either no guild is attached or the invoking identity did
not resolve to a guild member; warnings, clearwarnings, unwarn and
purge apply only the first half of that guard, rejecting exactly when
no guild is attached, and do not check member resolution. -/
theorem c8_context_guard_amended :
    (∀ (s : Snapshot) (reason userId : String) (confirm : ConfirmOutcome)
        (env : ExtOutcome) (cfg : BotConfig) (pw : Nat) (dur : Int),
      s.guildPresent = false ∨ s.userIsMember = false →
      kickCmd s reason env = ⟨.contextError, [], []⟩ ∧
      banCmd s reason confirm env = ⟨.contextError, [], []⟩ ∧
      unbanCmd s userId env = ⟨.contextError, [], []⟩ ∧
      warnCmd s reason cfg pw = ⟨.contextError, [], []⟩ ∧
      timeoutCmd s dur reason env = ⟨.contextError, [], []⟩ ∧
      untimeoutCmd s env = ⟨.contextError, [], []⟩) ∧
    (∀ (s : Snapshot) (dbList : Except Unit (List WarningRec))
        (dbCount : Except Unit Nat) (caps : DbCaps) (ws : List WarningRec)
        (cfg : BotConfig) (amount : Int) (chOk : Bool) (penv : PurgeEnv),
      s.guildPresent = false →
      warningsCmd s dbList = .contextError ∧
      clearwarningsCmd s dbCount = .contextError ∧
      unwarnCmd s caps ws = (.contextError, [], ws) ∧
      purgeCmd s cfg amount chOk penv = (.contextError, [])) := by
  constructor
  · intro s reason userId confirm env cfg pw dur h
    exact ⟨by unfold kickCmd; rw [if_pos h],
           by unfold banCmd; rw [if_pos h],
           by unfold unbanCmd; rw [if_pos h],
           by unfold warnCmd; rw [if_pos h],
           by unfold timeoutCmd; rw [if_pos h],
           by unfold untimeoutCmd; rw [if_pos h]⟩
  · intro s dbList dbCount caps ws cfg amount chOk penv h
    exact ⟨by unfold warningsCmd; rw [if_pos h],
           by unfold clearwarningsCmd; rw [if_pos h],
           by unfold unwarnCmd; rw [if_pos h],
           by unfold purgeCmd; rw [if_pos h]⟩

/-- C8 witness: the amended theorem applied to a concrete interaction
with no guild attached. -/
theorem c8_context_guard_amended_witness :
    kickCmd snapNoGuild "No reason provided" .ok = ⟨.contextError, [], []⟩ ∧
    warningsCmd snapNoGuild (Except.ok []) = .contextError :=
  ⟨((c8_context_guard_amended.1 snapNoGuild "No reason provided" "123" .accepted .ok
      cfg0 0 5) (Or.inl rfl)).1,
   ((c8_context_guard_amended.2 snapNoGuild (Except.ok []) (Except.ok 0) ⟨true, true⟩
      [] cfg0 3 true (.ok 0)) rfl).1⟩
